import Mathlib

/-!
Verification development for the SWE-bench evaluation pipeline
(`benchmarks/swe_bench/swe_bench.py` and
`benchmarks/swe_bench/build_docker_images.py`).

The Python code is shallowly embedded: Python dicts become association
lists that preserve insertion order (Python dicts are ordered), Python
strings become Lean `String`s, the file system and the persisted
sample-to-image mapping become explicit state values, and fallible code
returns `Except`/`Option`.  External state read by the code (the docker
image list, the loaded JSON mapping, the swebench spec tables) is passed
in explicitly as arguments.
-/

namespace SweBenchSpec

/-- The single-quote character (written via its code point to keep string
literals free of bare quote characters). -/
def squote : Char := Char.ofNat 39

/-- The double-quote character. -/
def dquote : Char := Char.ofNat 34

/-- The backslash character. -/
def bslash : Char := Char.ofNat 92

/-- The backquote character. -/
def bquote : Char := Char.ofNat 96

/-- Python's `pat in s` substring test on strings. -/
def strContains (s pat : String) : Bool := decide (pat.data <:+: s.data)

/-! ## Outcome classifier / scorer (`swebench_scorer` in swe_bench.py) -/

/-- Modelled from the spec: the external constant
`swebench.harness.constants.APPLY_PATCH_FAIL` (the patch-apply failure
signature); the swebench library is not under `src/`.  No claim depends on
the exact value, only on membership in the fixed signature list. -/
def APPLY_PATCH_FAIL : String := ">>>>> Patch Apply Failed"

/-- Modelled from the spec: the external constant
`swebench.harness.constants.RESET_FAILED` (the reset failure signature). -/
def RESET_FAILED : String := ">>>>> Reset Failed"

/-- Modelled from the spec: the external constant
`swebench.harness.constants.TESTS_ERROR` (the test-runner error signature). -/
def TESTS_ERROR : String := ">>>>> Tests Errored"

/-- Modelled from the spec: the external constant
`swebench.harness.constants.TESTS_TIMEOUT` (the test-runner timeout
signature). -/
def TESTS_TIMEOUT : String := ">>>>> Tests Timed Out"

/-- The fixed list of infrastructure-failure signatures scanned for by the
scorer (swe_bench.py lines 124-132). -/
def errorStrings : List String :=
  [APPLY_PATCH_FAIL, RESET_FAILED, TESTS_ERROR, TESTS_TIMEOUT,
   "Failed to reset task environment"]

/-- `error_string_search = {x : x in eval_output.stdout for x in [...]}`
(swe_bench.py lines 124-132); a Python dict comprehension over a list,
embedded as an ordered association list. -/
def errorStringSearch (stdout : String) : List (String × Bool) :=
  errorStrings.map (fun x => (x, strContains stdout x))

/-- Python `repr` of a `dict[str, bool]`, as interpolated into the error
explanation f-string (swe_bench.py line 136).  The keys reaching this
function are the five fixed signature strings, which contain no characters
that Python `repr` would escape. -/
def pyDictReprBool (d : List (String × Bool)) : String :=
  "\x7b" ++ String.intercalate ", "
    (d.map (fun kv => "\x27" ++ kv.1 ++ "\x27: " ++ (if kv.2 then "True" else "False")))
    ++ "\x7d"

/-- One character of JSON string escaping, as performed by `json.dumps`. -/
def jsonEscapeChar (c : Char) : List Char :=
  if c == dquote then [bslash, dquote]
  else if c == bslash then [bslash, bslash]
  else if c == '\n' then [bslash, 'n']
  else if c == '\t' then [bslash, 't']
  else if c == '\x0d' then [bslash, 'r']
  else [c]

/-- JSON string escaping for keys.  Model of the escaping done by Python
`json.dumps`; escaping of other control and non-ASCII characters is not
modelled (no claim depends on it). -/
def jsonEscape (s : String) : String :=
  String.mk (s.data.foldr (fun c acc => jsonEscapeChar c ++ acc) [])

/-- Model of Python `json.dumps(d, indent=2)` for a `dict[str, bool]`
(used for the partition pretty-printing at swe_bench.py line 158). -/
def jsonDumpsBool (d : List (String × Bool)) : String :=
  if d.isEmpty then "\x7b\x7d"
  else
    "\x7b\n" ++ String.intercalate ",\n"
      (d.map (fun kv =>
        "  " ++ "\x22" ++ jsonEscape kv.1 ++ "\x22" ++ ": " ++ (if kv.2 then "true" else "false")))
      ++ "\n\x7d"

/-- Python dict assignment `d[k] = v` on an insertion-ordered dict:
an existing key keeps its position and gets the new value, a fresh key is
appended. -/
def dictInsert (d : List (String × Bool)) (k : String) (v : Bool) :
    List (String × Bool) :=
  if d.any (fun p => p.1 == k) then
    d.map (fun p => if p.1 == k then (k, v) else p)
  else d ++ [(k, v)]

/-- Whether the ordered dict `d` has an entry for key `k`. -/
def hasKey (d : List (String × Bool)) (k : String) : Bool :=
  d.any (fun p => p.1 == k)

/-- One iteration of the partition loop (swe_bench.py lines 148-153):
`has_passed = "PASSED" == v`; if the test id is in the PASS_TO_PASS set the
result goes into `pass_to_pass_results`, otherwise (with no FAIL_TO_PASS
membership check) into `fail_to_pass_results`. -/
def partitionStep (pass_to_pass : List String)
    (acc : List (String × Bool) × List (String × Bool)) (kv : String × String) :
    List (String × Bool) × List (String × Bool) :=
  let has_passed := kv.2 == "PASSED"
  if pass_to_pass.contains kv.1 then (dictInsert acc.1 kv.1 has_passed, acc.2)
  else (acc.1, dictInsert acc.2 kv.1 has_passed)

/-- The partition phase of the scorer (swe_bench.py lines 146-153): fold the
parsed test outcomes into the two result dicts.  `PASS_TO_PASS` metadata is
modelled as the list of test identifiers it contains (the spec's "ordered
set of test identifiers"), with Python `in` as list membership. -/
def partitionResults (pass_to_pass : List String)
    (test_outputs : List (String × String)) :
    List (String × Bool) × List (String × Bool) :=
  test_outputs.foldl (partitionStep pass_to_pass) ([], [])

/-- `sorted(d.items(), key=lambda x: x[1])` for boolean values: a stable
sort by value with `False < True`, i.e. the `False` entries in input order
followed by the `True` entries in input order (swe_bench.py line 156). -/
def pySortedByVal (xs : List (String × Bool)) : List (String × Bool) :=
  xs.filter (fun p => p.2 == false) ++ xs.filter (fun p => p.2 == true)

/-- The explanation built when an infrastructure-failure signature matched
(swe_bench.py line 136). -/
def errorExplanation (search : List (String × Bool)) (stdout : String) : String :=
  "The tests did not run correctly. Output from searching for error strings:\n\n"
    ++ pyDictReprBool search ++ "\n\nOutput from tests:\n\n" ++ stdout

/-- The explanation built from the two sorted partitions
(swe_bench.py line 158). -/
def partitionExplanation (p1 p2 : List (String × Bool)) : String :=
  "PASS_TO_PASS:\n\n" ++ jsonDumpsBool p1 ++ "\n\nFAIL_TO_PASS:\n\n"
    ++ jsonDumpsBool p2 ++ "\n\n"

/-- The scorer's result: the numeric value (the Python floats `0.0`/`1.0`,
both exactly representable, are modelled as rationals) and the explanation
text. -/
structure ScoreResult where
  value : Rat
  explanation : String
deriving DecidableEq

/-- The pure core of `swebench_scorer` (swe_bench.py lines 124-165), from
the captured eval stdout to the score.  The repository-specific output
parser (`MAP_REPO_TO_PARSER[repo]`, external to `src/`) is passed in as a
function; the PASS_TO_PASS metadata as a list of test ids. -/
def swebench_scorer (test_output_parse_fn : String → List (String × String))
    (pass_to_pass : List String) (stdout : String) : ScoreResult :=
  let error_string_search := errorStringSearch stdout
  if error_string_search.any (fun p => p.2) then
    ⟨0, errorExplanation error_string_search stdout⟩
  else
    let test_outputs := test_output_parse_fn stdout
    let p := partitionResults pass_to_pass test_outputs
    let pass_to_pass_results := pySortedByVal p.1
    let fail_to_pass_results := pySortedByVal p.2
    ⟨if pass_to_pass_results.all (fun q => q.2) && fail_to_pass_results.all (fun q => q.2)
      then 1 else 0,
     partitionExplanation pass_to_pass_results fail_to_pass_results⟩

/-! ## Image mapping store (`build_docker_images.py`, `get_compose_file`) -/

/-- The persisted sample-to-image mapping: a JSON object whose top-level
keys are instance identifiers and whose values are objects mapping an
environment-setup-commit hash to an image name.  Embedded as nested
insertion-ordered association lists. -/
abbrev Store := List (String × List (String × String))

/-- Python dict assignment `store[k] = v` on the outer mapping. -/
def storeSet (store : Store) (k : String) (v : List (String × String)) : Store :=
  if store.any (fun p => p.1 == k) then
    store.map (fun p => if p.1 == k then (k, v) else p)
  else store ++ [(k, v)]

/-- The resolve step of `get_compose_file` (swe_bench.py lines 78-81):
`instance_id in s and environment_commit_id in s[instance_id]`. -/
def resolveImage (store : Store) (instance_id environment_commit : String) :
    Option String :=
  (List.lookup instance_id store).bind
    (fun inner => List.lookup environment_commit inner)

/-- The per-instance record step of `build_docker_images`
(build_docker_images.py lines 28-34), translated line by line:

* `if swebench_instance.instance_id not in environment_name_mapping:` —
  when the instance id is already present the whole block is skipped and
  the store is returned unchanged;
* inside that branch, `environment_name_mapping[instance_id] = {}` binds
  the inner dict to the fresh empty dict, and the subsequent
  `if environment_setup_commit in environment_name_mapping[instance_id]`
  tests membership in that fresh empty dict (so the assert arm comparing
  against the existing image is unreachable);
* the assert `mapping[iid][commit] == env_image_key` is embedded as the
  `Except.error` arm. -/
def record_env_image (store : Store)
    (instance_id environment_setup_commit env_image_key : String) :
    Except String Store :=
  if store.any (fun p => p.1 == instance_id) then
    .ok store
  else
    let inner : List (String × String) := []
    match List.lookup environment_setup_commit inner with
    | some existing =>
        if existing == env_image_key then .ok (storeSet store instance_id inner)
        else .error ("Image " ++ env_image_key ++ " already mapped to a different image")
    | none =>
        .ok (storeSet store instance_id
              (inner ++ [(environment_setup_commit, env_image_key)]))

/-! ## Sandbox provisioner (`get_compose_file` in swe_bench.py) -/

/-- The on-disk compose-file directory, as a file-system state: an
insertion-ordered map from file path to file content. -/
abbrev FS := List (String × String)

/-- Whether a path exists in the file-system state (`os.path.exists`). -/
def fsExists (fs : FS) (path : String) : Bool := fs.any (fun p => p.1 == path)

/-- Writing a file (`open(mode="w+")` followed by `write`). -/
def fsWrite (fs : FS) (path content : String) : FS :=
  if fs.any (fun p => p.1 == path) then
    fs.map (fun p => if p.1 == path then (path, content) else p)
  else fs ++ [(path, content)]

/-- `COMPOSE_FILE_DIR` (swe_bench.py line 31); the actual value is an
absolute path derived from the module location, modelled as a fixed
string (no claim depends on the prefix). -/
def COMPOSE_FILE_DIR : String := "resources/compose_files"

/-- The compose-file text written by `get_compose_file`
(swe_bench.py lines 94-99). -/
def composeFileContent (environment_image_name : String) : String :=
  "services:\n  default:\n    image: " ++ environment_image_name
    ++ "\n    command: \x22tail -f /dev/null\x22\n    working_dir: /testbed\n    x-local: true"

/-- `get_compose_file` (swe_bench.py lines 72-101).  The loaded
sample-to-image mapping is `none` when `SAMPLE_TO_IMAGE_PATH` does not
exist; `dockerImages` is the list of first tags of the docker images
(`[image.tags[0] for image in images]`).  Returns the compose file path
together with the updated file-system state.  Note the cache check at line
83 uses `{environment_commit_id}.yaml` while the write at line 92 uses
`{environment_image_name}.yaml`. -/
def get_compose_file (fs : FS) (sample_to_image : Option Store)
    (dockerImages : List String)
    (environment_commit_id instance_id dataset_name split : String) :
    Except String (String × FS) :=
  match sample_to_image with
  | none =>
      .error ("No sample to image mapping found. Please run \x27build_docker_images.py "
        ++ dataset_name ++ " " ++ split ++ " to build the images")
  | some store =>
      match resolveImage store instance_id environment_commit_id with
      | none =>
          .error ("No image found for instance_id " ++ instance_id
            ++ ". Please run \x27build_docker_images.py " ++ dataset_name ++ " "
            ++ split ++ " to build the images")
      | some environment_image_name =>
          let compose_file_path := COMPOSE_FILE_DIR ++ "/" ++ environment_commit_id ++ ".yaml"
          if fsExists fs compose_file_path then .ok (compose_file_path, fs)
          else if (dockerImages.contains environment_image_name) = false then
            .error ("Image " ++ environment_image_name
              ++ " not found in docker images. Please run \x27build_docker_images.py "
              ++ dataset_name ++ " " ++ split ++ " to build the images")
          else
            let compose_file_path2 := COMPOSE_FILE_DIR ++ "/" ++ environment_image_name ++ ".yaml"
            .ok (compose_file_path2,
              fsWrite fs compose_file_path2 (composeFileContent environment_image_name))

/-! ## Script generator (`get_eval_script`, `get_setup_script`) -/

/-- The repository/version specification consulted by the generators:
`MAP_REPO_VERSION_TO_SPECS[repo][version]` with its `.get` defaults
(external constant table of the swebench library, passed in explicitly). -/
structure VersionSpec where
  test_cmd : String
  eval_commands : List String
  pre_install : List String
  install : String
deriving DecidableEq

/-- `conda_env = "testbed"` (swe_bench.py line 173). -/
def conda_env : String := "testbed"

/-- `repo_directory = "/testbed"` (swe_bench.py line 174). -/
def repo_directory : String := "/testbed"

/-- The literal searched for by `re.findall(r"--- a/(.*)", test_patch)`. -/
def patchHeader : List Char := ("--- a/").data

/-- Model of `re.findall(r"--- a/(.*)", test_patch)` (swe_bench.py line
183): scan left to right; at each occurrence of `--- a/` capture the rest
of the line (`.` does not match a newline, `.*` is greedy) and resume the
scan after the full match; matches are non-overlapping. -/
def findPatchFiles (cs : List Char) : List (List Char) :=
  match cs with
  | [] => []
  | c :: rest =>
      if (c :: rest).take 6 = patchHeader then
        let cap := (List.drop 6 (c :: rest)).takeWhile (fun ch => ch != '\n')
        cap :: findPatchFiles (List.drop (6 + cap.length) (c :: rest))
      else findPatchFiles rest
termination_by cs.length
decreasing_by
  · simp only [List.length_drop, List.length_cons]
    omega
  · simp only [List.length_cons]
    omega

/-- A character matched by Python's `shlex._find_unsafe` complement: the
ASCII-only word characters plus `@ % + = : , . - ` and the forward slash.
All other characters make a string "unsafe". -/
def shlexSafe (c : Char) : Bool :=
  c.isAlpha || c.isDigit || c == '_' || c == '@' || c == '%' || c == '+'
    || c == '=' || c == ':' || c == ',' || c == '.' || c == '/' || c == '-'

/-- `s.replace("'", "'\"'\"'")` from `shlex.quote`: each single quote
becomes close-quote, double-quoted quote, reopen-quote. -/
def pyReplaceQuote (cs : List Char) : List Char :=
  cs.foldr
    (fun c acc =>
      (if c == squote then [squote, dquote, squote, dquote, squote] else [c]) ++ acc)
    []

/-- Python `shlex.quote`: the empty string becomes `''`; a string of only
safe characters is returned unchanged; otherwise the string is wrapped in
single quotes with each embedded single quote replaced by `'"'"'`. -/
def shlexQuote (s : String) : String :=
  if s.data.isEmpty then String.mk [squote, squote]
  else if s.data.all shlexSafe then s
  else String.mk (squote :: (pyReplaceQuote s.data ++ [squote]))

/-- `get_eval_script` (swe_bench.py lines 170-220).  The external swebench
tables are passed in: `spec` stands for `MAP_REPO_VERSION_TO_SPECS[repo][version]`
and `test_files` for `get_test_directives(...)`.  The script text
reproduces the source f-string byte for byte (including the trailing
spaces after `activate` on one source line and after `.diff`). -/
def get_eval_script (spec : VersionSpec) (test_files : List String)
    (test_patch repo version base_commit : String) : String :=
  let test_command := spec.test_cmd
  let repo_specific_setup_command := spec.eval_commands
  let test_patch_files := (findPatchFiles test_patch.data).map String.mk
  "#!/bin/bash\nset -uox pipefail\n\n"
    ++ "#We switch to the repository directory and activate the environment needed to run the tests\n"
    ++ "cd " ++ repo_directory ++ "\nset -x\nsource /opt/miniconda3/bin/activate \nconda activate "
    ++ conda_env ++ "\nset +x\n\n"
    ++ "#We run all of the repo-specific setup commands (If any exist)\n"
    ++ String.intercalate "\n" repo_specific_setup_command ++ "\n\n"
    ++ "#We make sure we\x27re back in the correct cwd and environment, in case repo setup caused issues.\n"
    ++ "cd " ++ repo_directory ++ "\nset -x\nsource /opt/miniconda3/bin/activate\nconda activate "
    ++ conda_env ++ "\nset +x\n\n"
    ++ "#First we reset all of the files which out test patch touches\n"
    ++ "git checkout " ++ base_commit ++ " " ++ String.intercalate " " test_patch_files ++ "\n\n"
    ++ "#Then we apply the test patch given to us by SWE-bench, setting up the test we need to run\n"
    ++ "echo " ++ shlexQuote test_patch ++ " > /tmp/test_patch.diff \n"
    ++ "git apply --check /tmp/test_patch.diff\n"
    ++ "git apply /tmp/test_patch.diff\n\n"
    ++ "#Then we run all the tests in the repository.\n"
    ++ test_command ++ " " ++ String.intercalate " " test_files

/-- `get_setup_script` (swe_bench.py lines 223-243).  `repo_install`
stands for the external `MAP_REPO_TO_INSTALL[repo]`; `spec` for
`MAP_REPO_VERSION_TO_SPECS[repo][version]` with its `.get` defaults. -/
def get_setup_script (repo_install : String) (spec : VersionSpec)
    (repo version base_commit : String) : String :=
  "#!/bin/bash\nset -euxo pipefail\n\n"
    ++ "# We clone the repository and set the permissions so the non-root user can run tests\n"
    ++ "git clone -o origin https://github.com/" ++ repo ++ " /testbed/\n"
    ++ "chmod -R 777 /testbed/\ncd /testbed/\ngit reset --hard " ++ base_commit
    ++ "\ngit remote remove origin\n\n"
    ++ "# We then do any repo-specific install scripts\n"
    ++ repo_install ++ "\n"
    ++ String.intercalate "\n" spec.pre_install ++ "\n"
    ++ spec.install

/-! ## Shell semantics for the patch-writing step (claim C6)

`get_eval_script` writes the test patch with
`echo {shlex.quote(test_patch)} > /tmp/test_patch.diff`, executed by
`bash -c`.  The definitions below model, from the POSIX shell and bash
semantics named by the spec (external to the repository), the fragment
those scripts can reach: field splitting with quote removal, and `echo`.
Constructs whose evaluation would leave the modelled fragment (unquoted
expansion or redirection metacharacters, unterminated quotes) yield
`none`. -/

/-- Unquoted characters that would trigger shell behaviour outside the
modelled fragment (expansions, globbing, operators, comments). -/
def isShellMeta (c : Char) : Bool :=
  c == '$' || c == bquote || c == '|' || c == '&' || c == ';' || c == '<'
    || c == '>' || c == '(' || c == ')' || c == '*' || c == '?' || c == '['
    || c == '~' || c == '!' || c == '#' || c == '\n'
    || c == Char.ofNat 123 || c == Char.ofNat 125

/-- Close the field under construction (the accumulator holds the current
field's characters in reverse; `none` means no field has been started). -/
def closeField (cur : Option (List Char)) (fields : List (List Char)) :
    List (List Char) :=
  match cur with
  | none => fields
  | some f => f.reverse :: fields

/-- Lexer modes of the shell word splitter. -/
inductive ShellMode where
  | norm | single | double | escape | escapeDouble
deriving DecidableEq

/-- One-pass shell field splitting with quote removal: blanks separate
fields; single quotes protect everything up to the closing quote; double
quotes protect everything except `$`, backquote and backslash; a
backslash escapes the next character (a backslash-newline is removed).
`cur` holds the characters of the field under construction in reverse
order, `fields` the completed fields in reverse order. -/
def shellSplitGo : List Char → ShellMode → Option (List Char) →
    List (List Char) → Option (List (List Char))
  | [], .norm, cur, fields => some (closeField cur fields).reverse
  | [], _, _, _ => none
  | c :: rest, .norm, cur, fields =>
      if c == ' ' || c == '\t' then shellSplitGo rest .norm none (closeField cur fields)
      else if c == squote then shellSplitGo rest .single (some (cur.getD [])) fields
      else if c == dquote then shellSplitGo rest .double (some (cur.getD [])) fields
      else if c == bslash then shellSplitGo rest .escape (some (cur.getD [])) fields
      else if isShellMeta c then none
      else shellSplitGo rest .norm (some (c :: cur.getD [])) fields
  | c :: rest, .single, cur, fields =>
      if c == squote then shellSplitGo rest .norm cur fields
      else shellSplitGo rest .single (some (c :: cur.getD [])) fields
  | c :: rest, .double, cur, fields =>
      if c == dquote then shellSplitGo rest .norm cur fields
      else if c == bslash then shellSplitGo rest .escapeDouble cur fields
      else if c == '$' || c == bquote then none
      else shellSplitGo rest .double (some (c :: cur.getD [])) fields
  | c :: rest, .escape, cur, fields =>
      if c == '\n' then shellSplitGo rest .norm cur fields
      else shellSplitGo rest .norm (some (c :: cur.getD [])) fields
  | c :: rest, .escapeDouble, cur, fields =>
      if c == '$' || c == bquote || c == dquote || c == bslash then
        shellSplitGo rest .double (some (c :: cur.getD [])) fields
      else if c == '\n' then shellSplitGo rest .double cur fields
      else shellSplitGo rest .double (some (c :: bslash :: cur.getD [])) fields

/-- Split a shell word (or word sequence) into its fields after quote
removal. -/
def shellSplit (cs : List Char) : Option (List (List Char)) :=
  shellSplitGo cs .norm none []

/-- A character allowed after the dash of a bash `echo` option word. -/
def isEchoFlagChar (c : Char) : Bool := c == 'n' || c == 'e' || c == 'E'

/-- Whether an argument is consumed by bash `echo` as an option word:
a dash followed by one or more of the letters `n`, `e`, `E`. -/
def isEchoFlagWord : List Char → Bool
  | '-' :: rest => !rest.isEmpty && rest.all isEchoFlagChar
  | _ => false

/-- Join operand words with single spaces, as `echo` prints them. -/
def joinSpaces : List (List Char) → List Char
  | [] => []
  | [a] => a
  | a :: rest => a ++ ' ' :: joinSpaces rest

/-- Bash `echo` on an argument vector: leading option words are consumed
(`n` suppresses the trailing newline); the remaining operands are joined
with single spaces and a newline is appended unless suppressed.  Backslash
escape interpretation (`-e`) is not modelled: it applies only when an
option word is followed by further operands, and the script under
verification always passes `echo` exactly one field. -/
def bashEchoGo : Bool → List (List Char) → List Char
  | suppress, [] => if suppress then [] else ['\n']
  | suppress, a :: rest =>
      if isEchoFlagWord a then bashEchoGo (suppress || a.contains 'n') rest
      else joinSpaces (a :: rest) ++ (if suppress then [] else ['\n'])

/-- Bash `echo` with no flags set initially. -/
def bashEcho (args : List (List Char)) : List Char := bashEchoGo false args

/-- The patch-writing step of the generated eval script
(swe_bench.py line 213): the shell splits the word `shlex.quote(test_patch)`
into `echo`'s arguments and the redirection captures `echo`'s output as the
content of `/tmp/test_patch.diff`.  `none` means the word left the
modelled shell fragment. -/
def writtenPatchFile (test_patch : String) : Option String :=
  (shellSplit (shlexQuote test_patch).data).map (fun args => String.mk (bashEcho args))

/-! ## General lemmas -/

theorem data_append (a b : String) : (a ++ b).data = a.data ++ b.data := rfl

theorem strContains_iff (s pat : String) :
    strContains s pat = true ↔ pat.data <:+: s.data := by
  simp [strContains]

theorem string_ext (s t : String) (h : s.data = t.data) : s = t := by
  cases s
  cases t
  exact congrArg String.mk h

/-! ## Scorer lemmas -/

theorem errorSearch_any_false (stdout : String)
    (h : ∀ s ∈ errorStrings, strContains stdout s = false) :
    (errorStringSearch stdout).any (fun p => p.2) = false := by
  rw [List.any_eq_false]
  intro p hp
  simp only [errorStringSearch, List.mem_map] at hp
  obtain ⟨s, hs, rfl⟩ := hp
  simp [h s hs]

theorem errorSearch_any_true (stdout s : String) (hs : s ∈ errorStrings)
    (hc : strContains stdout s = true) :
    (errorStringSearch stdout).any (fun p => p.2) = true := by
  rw [List.any_eq_true]
  exact ⟨(s, strContains stdout s), List.mem_map.mpr ⟨s, hs, rfl⟩, hc⟩

theorem swebench_scorer_err (parser : String → List (String × String))
    (pass_to_pass : List String) (stdout : String)
    (h : (errorStringSearch stdout).any (fun p => p.2) = true) :
    swebench_scorer parser pass_to_pass stdout =
      ⟨0, errorExplanation (errorStringSearch stdout) stdout⟩ := by
  simp [swebench_scorer, h]

theorem swebench_scorer_ok (parser : String → List (String × String))
    (pass_to_pass : List String) (stdout : String)
    (h : (errorStringSearch stdout).any (fun p => p.2) = false) :
    swebench_scorer parser pass_to_pass stdout =
      ⟨if (pySortedByVal (partitionResults pass_to_pass (parser stdout)).1).all (fun q => q.2)
          && (pySortedByVal (partitionResults pass_to_pass (parser stdout)).2).all (fun q => q.2)
        then 1 else 0,
       partitionExplanation
         (pySortedByVal (partitionResults pass_to_pass (parser stdout)).1)
         (pySortedByVal (partitionResults pass_to_pass (parser stdout)).2)⟩ := by
  simp [swebench_scorer, h]

theorem all_pySortedByVal (xs : List (String × Bool)) :
    (pySortedByVal xs).all (fun p => p.2) = xs.all (fun p => p.2) := by
  induction xs with
  | nil => rfl
  | cons x xs ih =>
      simp only [pySortedByVal, List.all_append] at ih
      cases hx : x.2 <;>
        simp [pySortedByVal, List.filter_cons, hx, List.all_append, ih]

theorem scorer_value_one_iff (parser : String → List (String × String))
    (pass_to_pass : List String) (stdout : String)
    (h : (errorStringSearch stdout).any (fun p => p.2) = false) :
    (swebench_scorer parser pass_to_pass stdout).value = 1 ↔
      ((partitionResults pass_to_pass (parser stdout)).1.all (fun q => q.2) = true ∧
       (partitionResults pass_to_pass (parser stdout)).2.all (fun q => q.2) = true) := by
  rw [swebench_scorer_ok parser pass_to_pass stdout h]
  simp only [all_pySortedByVal]
  cases h1 : (partitionResults pass_to_pass (parser stdout)).1.all (fun q => q.2) <;>
    cases h2 : (partitionResults pass_to_pass (parser stdout)).2.all (fun q => q.2) <;>
    norm_num

theorem scorer_value_cases (parser : String → List (String × String))
    (pass_to_pass : List String) (stdout : String) :
    (swebench_scorer parser pass_to_pass stdout).value = 0 ∨
    (swebench_scorer parser pass_to_pass stdout).value = 1 := by
  cases h : (errorStringSearch stdout).any (fun p => p.2)
  · rw [swebench_scorer_ok parser pass_to_pass stdout h]
    cases hc : (pySortedByVal (partitionResults pass_to_pass (parser stdout)).1).all (fun q => q.2)
        && (pySortedByVal (partitionResults pass_to_pass (parser stdout)).2).all (fun q => q.2)
    · left
      simp [hc]
    · right
      simp [hc]
  · left
    rw [swebench_scorer_err parser pass_to_pass stdout h]

theorem contains_label_pass (p1 p2 : List (String × Bool)) :
    strContains (partitionExplanation p1 p2) "PASS_TO_PASS:" = true := by
  rw [strContains_iff]
  have h1 : ("PASS_TO_PASS:").data <+: ("PASS_TO_PASS:\n\n").data := by decide
  have h2 : ("PASS_TO_PASS:\n\n").data <+: (partitionExplanation p1 p2).data := by
    unfold partitionExplanation
    simp only [data_append, List.append_assoc]
    exact List.prefix_append _ _
  exact (h1.trans h2).isInfix

theorem contains_label_fail (p1 p2 : List (String × Bool)) :
    strContains (partitionExplanation p1 p2) "FAIL_TO_PASS:" = true := by
  rw [strContains_iff]
  have h1 : ("FAIL_TO_PASS:").data <:+: ("\n\nFAIL_TO_PASS:\n\n").data := by decide
  refine h1.trans ?_
  unfold partitionExplanation
  simp only [data_append, List.append_assoc]
  refine ⟨("PASS_TO_PASS:\n\n").data ++ (jsonDumpsBool p1).data,
    (jsonDumpsBool p2).data ++ ("\n\n").data, ?_⟩
  simp [List.append_assoc]

theorem contains_search_repr (search : List (String × Bool)) (stdout : String) :
    strContains (errorExplanation search stdout) (pyDictReprBool search) = true := by
  rw [strContains_iff]
  unfold errorExplanation
  simp only [data_append, List.append_assoc]
  refine ⟨("The tests did not run correctly. Output from searching for error strings:\n\n").data,
    ("\n\nOutput from tests:\n\n").data ++ stdout.data, ?_⟩
  simp [List.append_assoc]

/-! ## Partition lemmas -/

theorem dictInsert_fresh (d : List (String × Bool)) (k : String) (v : Bool)
    (h : hasKey d k = false) : dictInsert d k v = d ++ [(k, v)] := by
  unfold hasKey at h
  simp [dictInsert, h]

theorem hasKey_append (d : List (String × Bool)) (k0 : String) (v : Bool) (k : String) :
    hasKey (d ++ [(k0, v)]) k = (hasKey d k || (k0 == k)) := by
  simp [hasKey, List.any_append]

theorem partition_fold_closed (ptp : List String) (outs : List (String × String)) :
    ∀ (acc1 acc2 : List (String × Bool)),
      (outs.map Prod.fst).Nodup →
      (∀ k ∈ outs.map Prod.fst, hasKey acc1 k = false ∧ hasKey acc2 k = false) →
      outs.foldl (partitionStep ptp) (acc1, acc2) =
        (acc1 ++ (outs.filter (fun kv => ptp.contains kv.1)).map
            (fun kv => (kv.1, kv.2 == "PASSED")),
         acc2 ++ (outs.filter (fun kv => !ptp.contains kv.1)).map
            (fun kv => (kv.1, kv.2 == "PASSED"))) := by
  induction outs with
  | nil => intro acc1 acc2 _ _; simp
  | cons kv rest ih =>
      intro acc1 acc2 hnd hfresh
      have hnd' : (rest.map Prod.fst).Nodup := (List.nodup_cons.mp (by simpa using hnd)).2
      have hk : kv.1 ∉ rest.map Prod.fst := (List.nodup_cons.mp (by simpa using hnd)).1
      have hfk := hfresh kv.1 (by simp)
      have hne : ∀ k ∈ rest.map Prod.fst, (kv.1 == k) = false := by
        intro k hkmem
        cases hq : kv.1 == k
        · rfl
        · exact absurd (beq_iff_eq.mp hq ▸ hkmem) hk
      by_cases hcm : kv.1 ∈ ptp
      · have hstep : partitionStep ptp (acc1, acc2) kv =
            (acc1 ++ [(kv.1, kv.2 == "PASSED")], acc2) := by
          simp [partitionStep, hcm, dictInsert_fresh _ _ _ hfk.1]
        rw [List.foldl_cons, hstep,
          ih (acc1 ++ [(kv.1, kv.2 == "PASSED")]) acc2 hnd' ?_]
        · simp [List.filter_cons, hcm, List.append_assoc]
        · intro k hkmem
          refine ⟨?_, (hfresh k (by simp [hkmem])).2⟩
          rw [hasKey_append]
          simp [(hfresh k (by simp [hkmem])).1, hne k hkmem]
      · have hstep : partitionStep ptp (acc1, acc2) kv =
            (acc1, acc2 ++ [(kv.1, kv.2 == "PASSED")]) := by
          simp [partitionStep, hcm, dictInsert_fresh _ _ _ hfk.2]
        rw [List.foldl_cons, hstep,
          ih acc1 (acc2 ++ [(kv.1, kv.2 == "PASSED")]) hnd' ?_]
        · simp [List.filter_cons, hcm, List.append_assoc]
        · intro k hkmem
          refine ⟨(hfresh k (by simp [hkmem])).1, ?_⟩
          rw [hasKey_append]
          simp [(hfresh k (by simp [hkmem])).2, hne k hkmem]

theorem partitionResults_closed (ptp : List String) (outs : List (String × String))
    (hnd : (outs.map Prod.fst).Nodup) :
    partitionResults ptp outs =
      ((outs.filter (fun kv => ptp.contains kv.1)).map (fun kv => (kv.1, kv.2 == "PASSED")),
       (outs.filter (fun kv => !ptp.contains kv.1)).map (fun kv => (kv.1, kv.2 == "PASSED"))) := by
  unfold partitionResults
  rw [partition_fold_closed ptp outs [] [] hnd (by intro k _; exact ⟨rfl, rfl⟩)]
  simp

theorem partition_membership (pass_to_pass : List String)
    (test_outputs : List (String × String)) (k v : String)
    (hnd : (test_outputs.map Prod.fst).Nodup) (hmem : (k, v) ∈ test_outputs) :
    (k ∈ pass_to_pass →
      (k, v == "PASSED") ∈ (partitionResults pass_to_pass test_outputs).1) ∧
    (k ∉ pass_to_pass →
      (k, v == "PASSED") ∈ (partitionResults pass_to_pass test_outputs).2) := by
  rw [partitionResults_closed _ _ hnd]
  constructor <;> intro hc
  · exact List.mem_map.mpr ⟨(k, v), List.mem_filter.mpr ⟨hmem, by simp [hc]⟩, rfl⟩
  · exact List.mem_map.mpr ⟨(k, v), List.mem_filter.mpr ⟨hmem, by simp [hc]⟩, rfl⟩

/-! ## Shell-quoting lemmas (claim C6) -/

theorem safe_ne (c x : Char) (h : shlexSafe c = true) (hx : shlexSafe x = false) :
    (c == x) = false := by
  cases hq : c == x
  · rfl
  · have hcx : c = x := beq_iff_eq.mp hq
    subst hcx
    rw [h] at hx
    exact hx

theorem safe_not_meta (c : Char) (h : shlexSafe c = true) : isShellMeta c = false := by
  unfold isShellMeta
  rw [safe_ne c '$' h (by decide), safe_ne c bquote h (by decide),
    safe_ne c '|' h (by decide), safe_ne c '&' h (by decide),
    safe_ne c ';' h (by decide), safe_ne c '<' h (by decide),
    safe_ne c '>' h (by decide), safe_ne c '(' h (by decide),
    safe_ne c ')' h (by decide), safe_ne c '*' h (by decide),
    safe_ne c '?' h (by decide), safe_ne c '[' h (by decide),
    safe_ne c '~' h (by decide), safe_ne c '!' h (by decide),
    safe_ne c '#' h (by decide), safe_ne c '\n' h (by decide),
    safe_ne c (Char.ofNat 123) h (by decide), safe_ne c (Char.ofNat 125) h (by decide)]
  rfl

theorem pyReplaceQuote_cons (c : Char) (rest : List Char) :
    pyReplaceQuote (c :: rest) =
      (if c == squote then [squote, dquote, squote, dquote, squote] else [c])
        ++ pyReplaceQuote rest := rfl

theorem step_norm_safe (c : Char) (hc : shlexSafe c = true) (l : List Char)
    (cur : Option (List Char)) (fields : List (List Char)) :
    shellSplitGo (c :: l) .norm cur fields =
      shellSplitGo l .norm (some (c :: cur.getD [])) fields := by
  simp only [shellSplitGo]
  rw [safe_ne c ' ' hc (by decide), safe_ne c '\t' hc (by decide),
    safe_ne c squote hc (by decide), safe_ne c dquote hc (by decide),
    safe_ne c bslash hc (by decide), safe_not_meta c hc]
  simp

theorem step_norm_squote (l : List Char) (cur : Option (List Char))
    (fields : List (List Char)) :
    shellSplitGo (squote :: l) .norm cur fields =
      shellSplitGo l .single (some (cur.getD [])) fields := by
  simp only [shellSplitGo]
  rw [show ((squote == ' ') || (squote == '\t')) = false from by decide,
    show (squote == squote) = true from by decide]
  simp

theorem step_norm_dquote (l : List Char) (cur : Option (List Char))
    (fields : List (List Char)) :
    shellSplitGo (dquote :: l) .norm cur fields =
      shellSplitGo l .double (some (cur.getD [])) fields := by
  simp only [shellSplitGo]
  rw [show ((dquote == ' ') || (dquote == '\t')) = false from by decide,
    show (dquote == squote) = false from by decide,
    show (dquote == dquote) = true from by decide]
  simp

theorem step_single_close (l : List Char) (cur : Option (List Char))
    (fields : List (List Char)) :
    shellSplitGo (squote :: l) .single cur fields = shellSplitGo l .norm cur fields := by
  simp only [shellSplitGo]
  rw [show (squote == squote) = true from by decide]
  simp

theorem step_single_other (c : Char) (l : List Char) (cur : Option (List Char))
    (fields : List (List Char)) (h : (c == squote) = false) :
    shellSplitGo (c :: l) .single cur fields =
      shellSplitGo l .single (some (c :: cur.getD [])) fields := by
  simp only [shellSplitGo]
  rw [h]
  simp

theorem step_double_squote (l : List Char) (cur : Option (List Char))
    (fields : List (List Char)) :
    shellSplitGo (squote :: l) .double cur fields =
      shellSplitGo l .double (some (squote :: cur.getD [])) fields := by
  simp only [shellSplitGo]
  rw [show (squote == dquote) = false from by decide,
    show (squote == bslash) = false from by decide,
    show ((squote == '$') || (squote == bquote)) = false from by decide]
  simp

theorem step_double_close (l : List Char) (cur : Option (List Char))
    (fields : List (List Char)) :
    shellSplitGo (dquote :: l) .double cur fields = shellSplitGo l .norm cur fields := by
  simp only [shellSplitGo]
  rw [show (dquote == dquote) = true from by decide]
  simp

theorem splitGo_safe : ∀ (cs : List Char), cs.all shlexSafe = true →
    ∀ (cur : List Char) (fields : List (List Char)),
      shellSplitGo cs .norm (some cur) fields =
        some ((closeField (some (cs.reverse ++ cur)) fields).reverse) := by
  intro cs
  induction cs with
  | nil =>
      intro _ cur fields
      simp [shellSplitGo]
  | cons c rest ih =>
      intro h cur fields
      rw [List.all_cons, Bool.and_eq_true] at h
      obtain ⟨hc, hrest⟩ := h
      rw [step_norm_safe c hc rest (some cur) fields]
      simp only [Option.getD_some]
      rw [ih hrest (c :: cur) fields]
      simp [closeField, List.append_assoc]

theorem splitGo_single : ∀ (cs : List Char) (cur : List Char)
    (fields : List (List Char)),
    shellSplitGo (pyReplaceQuote cs ++ [squote]) .single (some cur) fields =
      some ((closeField (some (cs.reverse ++ cur)) fields).reverse) := by
  intro cs
  induction cs with
  | nil =>
      intro cur fields
      show shellSplitGo ([] ++ [squote]) .single (some cur) fields = _
      rw [List.nil_append, step_single_close, shellSplitGo]
      simp
  | cons c rest ih =>
      intro cur fields
      rw [pyReplaceQuote_cons]
      by_cases hq : c = squote
      · subst hq
        simp only [beq_self_eq_true, ite_true, List.cons_append, List.nil_append]
        rw [step_single_close, step_norm_dquote, step_double_squote,
          step_double_close, step_norm_squote]
        simp only [Option.getD_some]
        rw [ih (squote :: cur) fields]
        simp [List.append_assoc]
      · have hb : (c == squote) = false := by
          cases hbq : c == squote
          · rfl
          · exact absurd (beq_iff_eq.mp hbq) hq
        simp only [hb, Bool.false_eq_true, ite_false, List.cons_append, List.nil_append]
        rw [step_single_other c _ _ _ hb]
        simp only [Option.getD_some]
        rw [ih (c :: cur) fields]
        simp [List.append_assoc]

theorem shlexQuote_splits (s : String) :
    shellSplit (shlexQuote s).data = some [s.data] := by
  unfold shellSplit shlexQuote
  by_cases h0 : s.data.isEmpty = true
  · rw [if_pos h0]
    rw [List.isEmpty_iff.mp h0]
    decide
  · rw [if_neg h0]
    by_cases h1 : s.data.all shlexSafe = true
    · rw [if_pos h1]
      obtain ⟨c, rest, hcr⟩ : ∃ c rest, s.data = c :: rest := by
        cases hsd : s.data with
        | nil => exact absurd (by simp [hsd]) h0
        | cons a l => exact ⟨a, l, rfl⟩
      rw [hcr] at h1 ⊢
      rw [List.all_cons, Bool.and_eq_true] at h1
      obtain ⟨hc, hrest⟩ := h1
      rw [step_norm_safe c hc rest none []]
      simp only [Option.getD_none]
      rw [splitGo_safe rest hrest [c] []]
      simp [closeField]
    · rw [if_neg h1]
      show shellSplitGo (squote :: (pyReplaceQuote s.data ++ [squote])) .norm none [] = _
      rw [step_norm_squote]
      simp only [Option.getD_none]
      rw [splitGo_single s.data [] []]
      simp [closeField]

theorem bashEcho_single (a : List Char) :
    bashEcho [a] =
      if isEchoFlagWord a = true then (if a.contains 'n' then [] else ['\n'])
      else a ++ ['\n'] := by
  by_cases hf : isEchoFlagWord a = true
  · rw [if_pos hf]
    cases hn : a.contains 'n' <;> simp at hn <;> simp [bashEcho, bashEchoGo, hf, hn]
  · rw [if_neg hf]
    have hfb : isEchoFlagWord a = false := by
      cases hq : isEchoFlagWord a
      · rfl
      · exact absurd hq hf
    simp [bashEcho, bashEchoGo, hfb, joinSpaces]

/-! ## Claims -/

/-- C1, counterexample: with PASS_TO_PASS = [] and FAIL_TO_PASS = [], the
parsed test "t" belongs to neither set, so the claim says its result
appears in neither partition; but the partition phase places it (with
verdict recorded as passed) in the FAIL_TO_PASS partition, because the
loop has no FAIL_TO_PASS membership check — everything not in PASS_TO_PASS
falls into the `else` branch. -/
theorem C1_counterexample :
    ¬ ("t" ∈ ([] : List String)) ∧
    (partitionResults [] [("t", "PASSED")]).1 = [] ∧
    (partitionResults [] [("t", "PASSED")]).2 = [("t", true)] :=
  ⟨by simp, rfl, rfl⟩

/-- C1, amended: in the partition phase, a parsed test outcome whose
identifier is in the instance's PASS_TO_PASS set is placed in the
PASS_TO_PASS partition, and every other parsed test outcome — whether or
not its identifier is in the FAIL_TO_PASS set — is placed in the
FAIL_TO_PASS partition; no parsed test is ignored.  (The parsed outcomes
come from a Python dict, hence the no-duplicate-keys hypothesis.) -/
theorem C1_partition_membership (pass_to_pass : List String)
    (test_outputs : List (String × String)) (k v : String)
    (hnd : (test_outputs.map Prod.fst).Nodup) (hmem : (k, v) ∈ test_outputs) :
    (k ∈ pass_to_pass →
      (k, v == "PASSED") ∈ (partitionResults pass_to_pass test_outputs).1) ∧
    (k ∉ pass_to_pass →
      (k, v == "PASSED") ∈ (partitionResults pass_to_pass test_outputs).2) :=
  partition_membership pass_to_pass test_outputs k v hnd hmem

/-- Witness for C1: a concrete parse result with one test in PASS_TO_PASS
and one test in neither set; the latter lands in the FAIL_TO_PASS
partition. -/
theorem C1_partition_membership_witness :
    ([("t1", "PASSED"), ("tX", "FAILED")].map Prod.fst).Nodup ∧
    ("tX", "FAILED") ∈ [("t1", "PASSED"), ("tX", "FAILED")] ∧
    (("tX" ∈ ["t1"] →
      ("tX", "FAILED" == "PASSED") ∈
        (partitionResults ["t1"] [("t1", "PASSED"), ("tX", "FAILED")]).1) ∧
     ("tX" ∉ ["t1"] →
      ("tX", "FAILED" == "PASSED") ∈
        (partitionResults ["t1"] [("t1", "PASSED"), ("tX", "FAILED")]).2)) :=
  ⟨by decide, by decide,
    C1_partition_membership ["t1"] [("t1", "PASSED"), ("tX", "FAILED")] "tX" "FAILED"
      (by decide) (by decide)⟩

/-- C2, code bug: when the store already holds an entry for the same
instance id under a different environment commit, the whole record block
is skipped (`if instance_id not in mapping` guards everything), so the
new (instance_id, environment_commit) → image mapping is silently dropped
and a subsequent resolve of that key finds nothing, contradicting the
claim that record followed by resolve returns the recorded image name
regardless of what the store already contains. -/
theorem C2_record_then_resolve_loses_mapping :
    record_env_image [("i", [("c1", "img1")])] "i" "c2" "img2" =
      .ok [("i", [("c1", "img1")])] ∧
    resolveImage [("i", [("c1", "img1")])] "i" "c2" = none ∧
    record_env_image [] "i" "c2" "img2" = .ok [("i", [("c2", "img2")])] ∧
    resolveImage [("i", [("c2", "img2")])] "i" "c2" = some "img2" :=
  ⟨rfl, rfl, rfl, rfl⟩

/-- C3, code bug: recording the key ("i", "c") — which already maps to
"img1" — with the different image name "img2" raises no error and leaves
the store unchanged (the conflict assert sits inside the
instance-not-present branch, right after the inner dict is reset to `{}`,
and is therefore unreachable); recording the same image name is likewise a
no-op.  The claim's required consistency error is never raised. -/
theorem C3_conflicting_record_silently_dropped :
    record_env_image [("i", [("c", "img1")])] "i" "c" "img2" =
      .ok [("i", [("c", "img1")])] ∧
    record_env_image [("i", [("c", "img1")])] "i" "c" "img1" =
      .ok [("i", [("c", "img1")])] :=
  ⟨rfl, rfl⟩

/-- C4: when no infrastructure-failure signature occurs in the eval
stdout, the score is 1.0 exactly when every entry of the PASS_TO_PASS
partition and every entry of the FAIL_TO_PASS partition was recorded as
passed (verdict "PASSED"); otherwise the score is 0.0; and the explanation
contains both labelled partitions. -/
theorem C4_score_iff_partitions_passed (parser : String → List (String × String))
    (pass_to_pass : List String) (stdout : String)
    (h : ∀ s ∈ errorStrings, strContains stdout s = false) :
    ((swebench_scorer parser pass_to_pass stdout).value = 1 ↔
      ((partitionResults pass_to_pass (parser stdout)).1.all (fun q => q.2) = true ∧
       (partitionResults pass_to_pass (parser stdout)).2.all (fun q => q.2) = true)) ∧
    ((swebench_scorer parser pass_to_pass stdout).value = 1 ∨
     (swebench_scorer parser pass_to_pass stdout).value = 0) ∧
    strContains (swebench_scorer parser pass_to_pass stdout).explanation
      "PASS_TO_PASS:" = true ∧
    strContains (swebench_scorer parser pass_to_pass stdout).explanation
      "FAIL_TO_PASS:" = true := by
  have hany := errorSearch_any_false stdout h
  refine ⟨scorer_value_one_iff parser pass_to_pass stdout hany,
    (scorer_value_cases parser pass_to_pass stdout).symm, ?_, ?_⟩
  · rw [swebench_scorer_ok parser pass_to_pass stdout hany]
    exact contains_label_pass _ _
  · rw [swebench_scorer_ok parser pass_to_pass stdout hany]
    exact contains_label_fail _ _

/-- Witness for C4 at a concrete parser, PASS_TO_PASS list and stdout. -/
theorem C4_score_iff_partitions_passed_witness :
    (∀ s ∈ errorStrings, strContains "sample output" s = false) ∧
    (((swebench_scorer (fun _ => [("t1", "PASSED"), ("t2", "FAILED")]) ["t1"]
        "sample output").value = 1 ↔
      ((partitionResults ["t1"]
          ((fun _ : String => [("t1", "PASSED"), ("t2", "FAILED")]) "sample output")).1.all
            (fun q => q.2) = true ∧
       (partitionResults ["t1"]
          ((fun _ : String => [("t1", "PASSED"), ("t2", "FAILED")]) "sample output")).2.all
            (fun q => q.2) = true)) ∧
     ((swebench_scorer (fun _ => [("t1", "PASSED"), ("t2", "FAILED")]) ["t1"]
        "sample output").value = 1 ∨
      (swebench_scorer (fun _ => [("t1", "PASSED"), ("t2", "FAILED")]) ["t1"]
        "sample output").value = 0) ∧
     strContains (swebench_scorer (fun _ => [("t1", "PASSED"), ("t2", "FAILED")]) ["t1"]
        "sample output").explanation "PASS_TO_PASS:" = true ∧
     strContains (swebench_scorer (fun _ => [("t1", "PASSED"), ("t2", "FAILED")]) ["t1"]
        "sample output").explanation "FAIL_TO_PASS:" = true) :=
  ⟨by decide,
    C4_score_iff_partitions_passed (fun _ => [("t1", "PASSED"), ("t2", "FAILED")]) ["t1"]
      "sample output" (by decide)⟩

/-- C5: when the eval stdout contains at least one of the fixed
infrastructure-failure signatures, the score is 0.0, the result does not
depend on the repository-specific output parser (it is never invoked), and
the explanation contains the search-result rendering that names which
signatures matched. -/
theorem C5_infra_signature_precedence (pass_to_pass : List String) (stdout : String)
    (h : ∃ s ∈ errorStrings, strContains stdout s = true) :
    (∀ parser1 parser2 : String → List (String × String),
      swebench_scorer parser1 pass_to_pass stdout =
        swebench_scorer parser2 pass_to_pass stdout) ∧
    (∀ parser1 : String → List (String × String),
      (swebench_scorer parser1 pass_to_pass stdout).value = 0) ∧
    (∀ parser1 : String → List (String × String),
      strContains (swebench_scorer parser1 pass_to_pass stdout).explanation
        (pyDictReprBool (errorStringSearch stdout)) = true) := by
  obtain ⟨s, hs, hc⟩ := h
  have hany := errorSearch_any_true stdout s hs hc
  refine ⟨?_, ?_, ?_⟩
  · intro parser1 parser2
    rw [swebench_scorer_err parser1 pass_to_pass stdout hany,
      swebench_scorer_err parser2 pass_to_pass stdout hany]
  · intro parser1
    rw [swebench_scorer_err parser1 pass_to_pass stdout hany]
  · intro parser1
    rw [swebench_scorer_err parser1 pass_to_pass stdout hany]
    exact contains_search_repr _ _

/-- Witness for C5: a stdout equal to the reset-failure signature, with
per-test PASSED results irrelevant. -/
theorem C5_infra_signature_precedence_witness :
    (∃ s ∈ errorStrings, strContains ">>>>> Reset Failed" s = true) ∧
    ((∀ parser1 parser2 : String → List (String × String),
      swebench_scorer parser1 [] ">>>>> Reset Failed" =
        swebench_scorer parser2 [] ">>>>> Reset Failed") ∧
     (∀ parser1 : String → List (String × String),
      (swebench_scorer parser1 [] ">>>>> Reset Failed").value = 0) ∧
     (∀ parser1 : String → List (String × String),
      strContains (swebench_scorer parser1 [] ">>>>> Reset Failed").explanation
        (pyDictReprBool (errorStringSearch ">>>>> Reset Failed")) = true)) :=
  ⟨by decide, C5_infra_signature_precedence [] ">>>>> Reset Failed" (by decide)⟩

/-- C7, code bug: the cache lookup checks `{environment_commit_id}.yaml`
while the write creates `{environment_image_name}.yaml`, so when the
commit id differs from the image name the cache never hits: a second
request for the same image re-validates the docker image list (here it
fails because the image list is empty the second time) and never returns
the descriptor file the first request produced. -/
theorem C7_descriptor_cache_never_hits :
    get_compose_file [] (some [("i", [("c", "img")])]) ["img"] "c" "i" "d" "s" =
      .ok ("resources/compose_files/img.yaml",
        [("resources/compose_files/img.yaml", composeFileContent "img")]) ∧
    get_compose_file [("resources/compose_files/img.yaml", composeFileContent "img")]
        (some [("i", [("c", "img")])]) [] "c" "i" "d" "s" =
      .error ("Image img not found in docker images. Please run \x27build_docker_images.py d s to build the images") :=
  ⟨rfl, rfl⟩

/-- C8: the setup-script and eval-script generators are deterministic pure
functions of their inputs — in this embedding the Python functions read
only their arguments and the module-level constant tables (passed here
explicitly), so two calls with identical inputs yield byte-identical
script text definitionally. -/
theorem C8_generators_deterministic (spec : VersionSpec) (test_files : List String)
    (repo_install test_patch repo version base_commit : String) :
    get_eval_script spec test_files test_patch repo version base_commit =
      get_eval_script spec test_files test_patch repo version base_commit ∧
    get_setup_script repo_install spec repo version base_commit =
      get_setup_script repo_install spec repo version base_commit :=
  ⟨rfl, rfl⟩

/-- C9: on clean infrastructure, when the repository-specific parser
returns an empty mapping of test outcomes, both partitions are empty and
the score is 1.0 (the universally quantified pass conditions hold
vacuously). -/
theorem C9_empty_parse_scores_one (parser : String → List (String × String))
    (pass_to_pass : List String) (stdout : String)
    (h : ∀ s ∈ errorStrings, strContains stdout s = false)
    (hparse : parser stdout = []) :
    (swebench_scorer parser pass_to_pass stdout).value = 1 := by
  have hany := errorSearch_any_false stdout h
  rw [swebench_scorer_ok parser pass_to_pass stdout hany]
  simp [hparse, partitionResults, pySortedByVal]

/-- Witness for C9: a parser returning no outcomes on a clean stdout. -/
theorem C9_empty_parse_scores_one_witness :
    (∀ s ∈ errorStrings, strContains "no tests ran" s = false) ∧
    (fun _ : String => ([] : List (String × String))) "no tests ran" = [] ∧
    (swebench_scorer (fun _ => []) [] "no tests ran").value = 1 :=
  ⟨by decide, rfl,
    C9_empty_parse_scores_one (fun _ => []) [] "no tests ran" (by decide) rfl⟩

/-- C10: on clean infrastructure, a parsed test outcome whose verdict is
any string other than "PASSED" is recorded as not passed in whichever
partition it lands in, and its presence forces the final score to 0.0. -/
theorem C10_non_passed_verdict_forces_zero (parser : String → List (String × String))
    (pass_to_pass : List String) (stdout : String) (k v : String)
    (h : ∀ s ∈ errorStrings, strContains stdout s = false)
    (hnd : ((parser stdout).map Prod.fst).Nodup)
    (hmem : (k, v) ∈ parser stdout) (hv : v ≠ "PASSED") :
    ((k, false) ∈ (partitionResults pass_to_pass (parser stdout)).1 ∨
     (k, false) ∈ (partitionResults pass_to_pass (parser stdout)).2) ∧
    (swebench_scorer parser pass_to_pass stdout).value = 0 := by
  have hany := errorSearch_any_false stdout h
  have hvb : (v == "PASSED") = false := by simp [hv]
  have hmem2 := partition_membership pass_to_pass (parser stdout) k v hnd hmem
  have hin : (k, false) ∈ (partitionResults pass_to_pass (parser stdout)).1 ∨
      (k, false) ∈ (partitionResults pass_to_pass (parser stdout)).2 := by
    by_cases hc : k ∈ pass_to_pass
    · exact Or.inl (hvb ▸ hmem2.1 hc)
    · exact Or.inr (hvb ▸ hmem2.2 hc)
  refine ⟨hin, ?_⟩
  rcases scorer_value_cases parser pass_to_pass stdout with h0 | h1
  · exact h0
  · exfalso
    have hiff := (scorer_value_one_iff parser pass_to_pass stdout hany).mp h1
    rcases hin with hin1 | hin2
    · exact absurd (List.all_eq_true.mp hiff.1 _ hin1) (by simp)
    · exact absurd (List.all_eq_true.mp hiff.2 _ hin2) (by simp)

/-- Witness for C10: a SKIPPED verdict in the PASS_TO_PASS partition
drives the score to 0. -/
theorem C10_non_passed_verdict_forces_zero_witness :
    (∀ s ∈ errorStrings, strContains "ran" s = false) ∧
    (((fun _ : String => [("t1", "SKIPPED")]) "ran").map Prod.fst).Nodup ∧
    ("t1", "SKIPPED") ∈ (fun _ : String => [("t1", "SKIPPED")]) "ran" ∧
    "SKIPPED" ≠ "PASSED" ∧
    ((("t1", false) ∈ (partitionResults ["t1"]
        ((fun _ : String => [("t1", "SKIPPED")]) "ran")).1 ∨
      ("t1", false) ∈ (partitionResults ["t1"]
        ((fun _ : String => [("t1", "SKIPPED")]) "ran")).2) ∧
     (swebench_scorer (fun _ => [("t1", "SKIPPED")]) ["t1"] "ran").value = 0) :=
  ⟨by decide, by decide, by decide, by decide,
    C10_non_passed_verdict_forces_zero (fun _ => [("t1", "SKIPPED")]) ["t1"] "ran"
      "t1" "SKIPPED" (by decide) (by decide) (by decide) (by decide)⟩

/-- C6, counterexample: the patch-writing step does not write exactly the
original patch text.  For the patch text "a" the file receives "a" plus a
trailing newline appended by `echo`; for the patch text "-n" (only
safe characters, so `shlex.quote` leaves it unquoted and `echo` consumes
it as its no-newline option) the file receives nothing at all — a
truncation. -/
theorem C6_counterexample :
    writtenPatchFile "a" = some ("a" ++ "\n") ∧ writtenPatchFile "a" ≠ some "a" ∧
    writtenPatchFile "-n" = some "" ∧ writtenPatchFile "-n" ≠ some "-n" :=
  ⟨by decide, by decide, by decide, by decide⟩

/-- C6, amended: for every test patch text that is not a bash `echo`
option word (a dash followed only by the letters n, e, E — no real diff
has this form), executing the generated eval script's patch-writing step
writes exactly the original patch text followed by a single trailing
newline to /tmp/test_patch.diff; in particular single quotes, double
quotes, backslashes and embedded newlines survive the shlex quoting and
shell splitting unaltered. -/
theorem C6_patch_write_roundtrip (test_patch : String)
    (h : isEchoFlagWord test_patch.data = false) :
    writtenPatchFile test_patch = some (test_patch ++ "\n") := by
  unfold writtenPatchFile
  rw [shlexQuote_splits test_patch]
  show some (String.mk (bashEcho [test_patch.data])) = _
  rw [bashEcho_single]
  rw [h]
  simp only [Bool.false_eq_true, ite_false]
  exact congrArg some (string_ext _ _ (by simp [data_append]))

/-- Witness for C6 at a patch text containing single quotes, double
quotes, a backslash and embedded newlines. -/
theorem C6_patch_write_roundtrip_witness :
    isEchoFlagWord ("--- a/f.py\nx = \x27hi\x27 \x22q\x22 \\ \nend").data = false ∧
    writtenPatchFile "--- a/f.py\nx = \x27hi\x27 \x22q\x22 \\ \nend" =
      some ("--- a/f.py\nx = \x27hi\x27 \x22q\x22 \\ \nend" ++ "\n") :=
  ⟨by decide, C6_patch_write_roundtrip "--- a/f.py\nx = \x27hi\x27 \x22q\x22 \\ \nend" (by decide)⟩

end SweBenchSpec
